import Mathlib

/-!
Shallow embedding of `src/bitfield_gen/bfgen.c`, a build-time probe that
discovers the bit-field layout of the `jvmtiCapabilities` structure and
prints, for every one-bit capability field, a Rust constant whose value
encodes the byte offset and the byte value observed after setting exactly
that field.

The C program consists of a struct declaration (45 named one-bit fields
plus anonymous padding up to 16 bytes), the function `dbg` that scans the
16 bytes of a structure image and prints `0x%02X%02X` (offset, value) for
every nonzero byte followed by `";\n"`, and `main`, which first checks
`sizeof(jvmtiCapabilities) == 16` (calling `exit(-1)` otherwise) and then
runs 45 identical blocks: print a declaration head, `memset` the image to
zero, set one field to 1, call `dbg`.

The placement of each one-bit field (its byte offset and bit position) is
implementation-defined and is exactly what the program observes at run
time; the model therefore takes this placement as a parameter (`Layout`).
The structure image is modelled as a list of byte values, the printed
output as the list of lines produced by the 45 blocks, and the process
exit status as a natural number (`exit(-1)` is observed by the operating
system as status `255 = (-1) mod 256`).
-/

namespace BFGen

/-- The byte size `main` requires of the probed structure:
`sizeof(jvmtiCapabilities)` must equal 16 or the program exits at once. -/
def structSize : Nat := 16

/-- The constant names printed by the 45 probe blocks of `main`, in program
order.  This order coincides with the declaration order of the named
one-bit fields of `jvmtiCapabilities`: the probe block at position `f`
sets the field declared at position `f`.  The spelling (including the
`THREAD_EVENETS` typo of block 41) is copied from the `printf` calls. -/
def flagNames : List String := [
  "OFFSET_CAN_TAG_OBJECTS",
  "OFFSET_CAN_GENERATE_FIELD_MODIFICATION_EVENTS",
  "OFFSET_CAN_GENERATE_FIELD_ACCESS_EVENTS",
  "OFFSET_CAN_GET_BYTECODES",
  "OFFSET_CAN_GET_SYNTHETIC_ATTRIBUTE",
  "OFFSET_CAN_GET_OWNED_MONITOR_INFO",
  "OFFSET_CAN_GET_CURRENT_CONTENDED_MONITOR",
  "OFFSET_CAN_GET_MONITOR_INFO",
  "OFFSET_CAN_POP_FRAME",
  "OFFSET_CAN_REDEFINE_CLASSES",
  "OFFSET_CAN_SIGNAL_THREAD",
  "OFFSET_CAN_GET_SOURCE_FILE_NAME",
  "OFFSET_CAN_GET_LINE_NUMBERS",
  "OFFSET_CAN_GET_SOURCE_DEBUG_EXTENSION",
  "OFFSET_CAN_ACCESS_LOCAL_VARIABLES",
  "OFFSET_CAN_MAINTAIN_ORIGINAL_METHOD_ORDER",
  "OFFSET_CAN_GENERATE_SINGLE_STEP_EVENTS",
  "OFFSET_CAN_GENERATE_EXCEPTION_EVENTS",
  "OFFSET_CAN_GENERATE_FRAME_POP_EVENTS",
  "OFFSET_CAN_GENERATE_BREAKPOINT_EVENTS",
  "OFFSET_CAN_SUSPEND",
  "OFFSET_CAN_REDEFINE_ANY_CLASS",
  "OFFSET_CAN_GET_CURRENT_THREAD_CPU_TIME",
  "OFFSET_CAN_GET_THREAD_CPU_TIME",
  "OFFSET_CAN_GENERATE_METHOD_ENTRY_EVENTS",
  "OFFSET_CAN_GENERATE_METHOD_EXIT_EVENTS",
  "OFFSET_CAN_GENERATE_ALL_CLASS_HOOK_EVENTS",
  "OFFSET_CAN_GENERATE_COMPILED_METHOD_LOAD_EVENTS",
  "OFFSET_CAN_GENERATE_MONITOR_EVENTS",
  "OFFSET_CAN_GENERATE_VM_OBJECT_ALLOC_EVENTS",
  "OFFSET_CAN_GENERATE_NATIVE_METHOD_BIND_EVENTS",
  "OFFSET_CAN_GENERATE_GARBAGE_COLLECTION_EVENTS",
  "OFFSET_CAN_GENERATE_OBJECT_FREE_EVENTS",
  "OFFSET_CAN_FORCE_EARLY_RETURN",
  "OFFSET_CAN_GET_OWNED_MONITOR_STACK_DEPTH_INFO",
  "OFFSET_CAN_GET_CONSTANT_POOL",
  "OFFSET_CAN_SET_NATIVE_METHOD_PREFIX",
  "OFFSET_CAN_RETRANSFORM_CLASSES",
  "OFFSET_CAN_RETRANSFORM_ANY_CLASS",
  "OFFSET_CAN_GENERATE_RESOURCE_EXHAUSTION_HEAP_EVENTS",
  "OFFSET_CAN_GENERATE_RESOURCE_EXHAUSTION_THREAD_EVENETS",
  "OFFSET_CAN_GENERATE_EARLY_VMSTART",
  "OFFSET_CAN_GENERATE_EARLY_CLASS_HOOK_EVENTS",
  "OFFSET_CAN_GENERATE_SAMPLED_OBJECT_ALLOC_EVENTS",
  "OFFSET_CAN_SUPPORT_VIRTUAL_THREADS"]

/-- A bit-field layout: for each field index, the byte offset and the bit
position inside that byte that the compiler assigned to that one-bit
field.  This placement is implementation-defined; the C program observes
it rather than computing it, so the model takes it as a parameter.  A
byte offset `≥ structSize` models a field the 16-byte scan cannot see. -/
abbrev Layout : Type := Nat → Nat × Nat

/-- A structure image: the raw bytes of one `jvmtiCapabilities` object,
as read through `uint8_t*`.  Each entry is one byte value (< 256). -/
abbrev Image : Type := List Nat

/-- The all-zero image produced by `memset(&cap, 0, sizeof(jvmtiCapabilities))`. -/
def zeroImage : Image := List.replicate structSize 0

/-- `cap.<field f> = 1`: set the single bit of field `f` at the byte
offset and bit position the layout assigns to it (the bit position is
reduced mod 8 so that every byte stays an 8-bit value, as in the C
object).  `List.set` leaves the image unchanged when the byte offset is
out of range. -/
def setFlag (L : Layout) (f : Nat) (img : Image) : Image :=
  img.set (L f).1 (img.getD (L f).1 0 ||| (1 <<< ((L f).2 % 8)))

/-- The image `dbg` scans during probe `f`: freshly zeroed by `memset`,
then field `f` set to 1. -/
def scannedImage (L : Layout) (f : Nat) : Image := setFlag L f zeroImage

/-- One uppercase hexadecimal digit, as produced by `%X`. -/
def hexDigit (n : Nat) : Char :=
  if n < 10 then Char.ofNat (48 + n) else Char.ofNat (55 + n)

/-- `%02X`: the two-digit uppercase hexadecimal rendering of a byte value. -/
def hex2 (n : Nat) : String :=
  String.mk [hexDigit (n / 16 % 16), hexDigit (n % 16)]

/-- One `printf("0x%02X%02X", i, n[i])` chunk: byte offset `i` in the high
two digits, byte value `v` in the low two digits. -/
def chunk (i v : Nat) : String := "0x" ++ hex2 i ++ hex2 v

/-- The function `dbg`: scan the 16 bytes of the image in ascending offset
order, print a `chunk` for every nonzero byte, then print `";\n"`.
`dbg` performs no check and never aborts. -/
def dbg (img : Image) : String :=
  ((List.range structSize).foldl
    (fun acc i => if img.getD i 0 ≠ 0 then acc ++ chunk i (img.getD i 0) else acc)
    "") ++ ";\n"

/-- The complete line printed by probe block `f` labelled `name`: the
`printf` head followed by the `dbg` output for the freshly zeroed image
with field `f` set. -/
def probeLine (L : Layout) (f : Nat) (name : String) : String :=
  "pub const " ++ name ++ " : usize = " ++ dbg (scannedImage L f)

/-- One probe block of `main`: print the declaration head, `memset` the
`cap` object to zero, set field `f` to 1, call `dbg`.  Returns the text
printed by the block together with the contents `cap` holds afterwards
(the incoming contents `cap` are overwritten by the `memset`). -/
def probeStep (L : Layout) (_cap : Image) (f : Nat) (name : String) : String × Image :=
  (probeLine L f name, scannedImage L f)

/-- The exit status the operating system reports for a process that calls
`exit(c)`: the low 8 bits of `c`, so `exit(-1)` is observed as 255. -/
def exitStatusOf (c : Int) : Nat := (c % 256).toNat

/-- The function `main`, parametrised by the measured structure size and
the compiler's layout.  If `sizeof(jvmtiCapabilities) ≠ 16` it calls
`exit(-1)` before printing anything; otherwise it runs the 45 probe
blocks in program order, threading the single stack object `cap`
(whose initial, uninitialised contents are `cap0`) through them, and
returns 0.  The result is the list of printed lines (one per block)
paired with the process exit status. -/
def run (size : Nat) (L : Layout) (cap0 : Image) : List String × Nat :=
  if size ≠ structSize then ([], exitStatusOf (-1))
  else
    (((flagNames.enum).foldl
      (fun st e => (st.1 ++ [(probeStep L st.2 e.1 e.2).1], (probeStep L st.2 e.1 e.2).2))
      ([], cap0)).1, 0)

/-- Concatenation of a list of strings with no separator. -/
def strJoin : List String → String
  | [] => ""
  | s :: l => s ++ strJoin l

/-- Specification-side description of the `dbg` output: one chunk per
nonzero byte, in ascending byte-offset order, concatenated with no
separator, followed by the statement delimiter and newline. -/
def dbgSpec (img : Image) : String :=
  strJoin (((List.range structSize).filter (fun i => img.getD i 0 ≠ 0)).map
    (fun i => chunk i (img.getD i 0))) ++ ";\n"

/-- Numeric value of one uppercase hexadecimal digit character. -/
def hexVal (c : Char) : Nat :=
  if c.toNat ≤ 57 then c.toNat - 48 else c.toNat - 55

/-- The value denoted by a hexadecimal integer literal `0x...`: strip the
two-character `0x` head and fold the remaining digits. -/
def parseHex (s : String) : Nat :=
  (s.data.drop 2).foldl (fun a c => a * 16 + hexVal c) 0

/-- A concrete example layout: declaration-order packing, eight fields per
byte, least significant bit first (the layout common C compilers give this
struct on little-endian targets).  Used to instantiate theorems. -/
def byteLayout : Layout := fun f => (f / 8, f % 8)

/-- A concrete degenerate layout placing every field beyond the 16 scanned
bytes, so every scanned image stays all-zero.  Used to instantiate the
inconsistency scenarios. -/
def outsideLayout : Layout := fun _ => (structSize, 0)

theorem foldl_probe (L : Layout) (l : List (Nat × String)) :
    ∀ (out : List String) (cap : Image),
      ((l.foldl
        (fun st e => (st.1 ++ [(probeStep L st.2 e.1 e.2).1], (probeStep L st.2 e.1 e.2).2))
        (out, cap)).1)
        = out ++ l.map (fun e => probeLine L e.1 e.2) := by
  induction l with
  | nil => intro out cap; simp
  | cons e t ih =>
    intro out cap
    simp only [List.foldl_cons, List.map_cons]
    rw [ih]
    simp [probeStep, List.append_assoc]

theorem run_eq (size : Nat) (L : Layout) (cap0 : Image) :
    run size L cap0 =
      if size = structSize
      then (flagNames.enum.map (fun e => probeLine L e.1 e.2), 0)
      else ([], 255) := by
  by_cases h : size = structSize
  · simp only [run, h, if_pos, if_neg, ite_true, ite_false, ne_eq, not_true_eq_false]
    simp [foldl_probe L flagNames.enum [] cap0]
  · simp [run, h, exitStatusOf]

theorem run_length (size : Nat) (L : Layout) (cap0 : Image) (h : size = structSize) :
    (run size L cap0).1.length = 45 := by
  rw [run_eq, if_pos h]
  simp [flagNames]

theorem run_getD (L : Layout) (cap0 : Image) (i : Nat) (h : i < 45) :
    (run structSize L cap0).1.getD i "" = probeLine L i (flagNames.getD i "") := by
  rw [run_eq, if_pos rfl]
  have hlen : i < flagNames.length := by simpa [flagNames] using h
  simp [List.getD_eq_getElem?_getD, List.getElem?_map, List.getElem?_enum,
    List.getElem?_eq_getElem hlen, List.getD_eq_getElem?_getD]

theorem dbg_foldl (img : Image) (l : List Nat) :
    ∀ acc : String,
      l.foldl (fun acc i => if img.getD i 0 ≠ 0 then acc ++ chunk i (img.getD i 0) else acc) acc
        = acc ++ strJoin ((l.filter (fun i => img.getD i 0 ≠ 0)).map
            (fun i => chunk i (img.getD i 0))) := by
  induction l with
  | nil => intro acc; simp [strJoin, String.append_empty]
  | cons x t ih =>
    intro acc
    by_cases h : img.getD x 0 ≠ 0
    · rw [List.foldl_cons, if_pos h, ih, List.filter_cons, if_pos (decide_eq_true h),
        List.map_cons]
      simp only [strJoin]
      rw [String.append_assoc]
    · rw [List.foldl_cons, if_neg h, ih, List.filter_cons,
        if_neg (fun hc => h (of_decide_eq_true hc))]

theorem dbg_eq_dbgSpec (img : Image) : dbg img = dbgSpec img := by
  unfold dbg dbgSpec
  rw [dbg_foldl img (List.range structSize) "", String.empty_append]

theorem dbg_zero : dbg zeroImage = ";\n" := by decide

theorem zeroImage_getD (b : Nat) : zeroImage.getD b 0 = 0 := by
  by_cases hb : b < structSize
  · simp [zeroImage, List.getD_eq_getElem?_getD, List.getElem?_replicate, hb]
  · simp [zeroImage, List.getD_eq_getElem?_getD, List.getElem?_replicate, hb]

theorem scannedImage_getD_ne (L : Layout) (f b : Nat) (h : b ≠ (L f).1) :
    (scannedImage L f).getD b 0 = 0 := by
  unfold scannedImage setFlag
  rw [List.getD_eq_getElem?_getD, List.getElem?_set_ne (Ne.symm h)]
  have h0 := zeroImage_getD b
  rwa [List.getD_eq_getElem?_getD] at h0

theorem scannedImage_getD_self (L : Layout) (f : Nat) (h : (L f).1 < structSize) :
    (scannedImage L f).getD (L f).1 0 = 1 <<< ((L f).2 % 8) := by
  unfold scannedImage setFlag
  have hlen : (L f).1 < zeroImage.length := by
    simpa [zeroImage] using h
  rw [List.getD_eq_getElem?_getD, List.getElem?_set_self hlen]
  simp only [Option.getD_some]
  rw [zeroImage_getD, Nat.zero_or]

/-- Claim C1, counterexample: under a layout that makes probe 0 scan an
image with zero nonzero bytes — violating the one-nonzero-byte layout
assumption — the program does not terminate with a nonzero exit status
and does not stop printing: it exits with status 0 and still prints a
line for every one of the 45 flags. -/
theorem layout_violation_not_fatal_cex :
    scannedImage outsideLayout 0 = zeroImage
    ∧ (run structSize outsideLayout []).2 = 0
    ∧ (run structSize outsideLayout []).1.length = 45 :=
  ⟨by decide, by simp [run_eq], run_length structSize outsideLayout [] rfl⟩

/-- Claim C1 (amended): the byte scan in dbg performs no consistency check
at all: whatever the scanned images contain — zero nonzero bytes, several
nonzero bytes, or multi-bit byte values — the run still prints its line
for every one of the 45 flags and exits with status 0. -/
theorem run_completes_regardless_of_layout (L : Layout) (cap : Image) :
    (run structSize L cap).2 = 0 ∧ (run structSize L cap).1.length = 45 :=
  ⟨by simp [run_eq], run_length structSize L cap rfl⟩

/-- Claim C2: if the measured structure size differs from the expected 16
the program exits with a nonzero status having printed nothing; if it
equals 16 the run finishes every probe and exits with status 0. -/
theorem size_gate (size : Nat) (L : Layout) (cap : Image) :
    (size ≠ structSize → (run size L cap).1 = [] ∧ (run size L cap).2 ≠ 0)
    ∧ (size = structSize → (run size L cap).2 = 0) := by
  constructor
  · intro h
    rw [run_eq, if_neg h]
    exact ⟨rfl, by decide⟩
  · intro h
    rw [run_eq, if_pos h]

/-- Claim C2, witness at measured sizes 15 and 16. -/
theorem size_gate_witness :
    ((run 15 byteLayout []).1 = [] ∧ (run 15 byteLayout []).2 ≠ 0)
    ∧ (run 16 byteLayout []).2 = 0 :=
  ⟨(size_gate 15 byteLayout []).1 (by decide),
   (size_gate 16 byteLayout []).2 rfl⟩

/-- Claim C3: for every byte offset o < 16 and single-bit mask 1 <<< k
with k < 8 (the masks 0x01 through 0x80), the hexadecimal literal the
emitter prints for that (offset, mask) layout fact denotes exactly the
value (o <<< 8) ||| mask. -/
theorem chunk_denotes_encoded :
    ∀ o, o < 16 → ∀ k, k < 8 →
      parseHex (chunk o (1 <<< k)) = (o <<< 8) ||| (1 <<< k) := by decide

/-- Claim C3, witness: offset 2 with mask 0x08 is printed as a literal
denoting 0x0208. -/
theorem chunk_denotes_encoded_witness :
    parseHex (chunk 2 (1 <<< 3)) = 0x0208 :=
  (chunk_denotes_encoded 2 (by decide) 3 (by decide)).trans (by decide)

/-- Claim C4, counterexample: the catalog has 45 entries and a successful
run prints 45 lines, not 44 as claimed. -/
theorem probe_count_cex :
    flagNames.length = 45
    ∧ ¬ (run structSize byteLayout []).1.length = 44 := by
  refine ⟨by decide, ?_⟩
  rw [run_length structSize byteLayout [] rfl]
  decide

/-- Claim C4 (amended): the Driver performs exactly 45 probe-and-emit
iterations — one per declared capability field — producing exactly one
output line per catalog entry, in declaration order, with no skipping,
retry, or reordering: the output is precisely the map of probeLine over
the indexed catalog, which has 45 entries. -/
theorem probe_lines_in_order (L : Layout) (cap : Image) :
    (run structSize L cap).1 = flagNames.enum.map (fun e => probeLine L e.1 e.2)
    ∧ flagNames.length = 45 :=
  ⟨by simp [run_eq], by decide⟩

/-- Claim C5: every probe begins from a freshly zeroed image and sets
exactly one field before the scan: the line printed for flag f depends
only on the layout and on f (not on the initial memory contents nor on
any earlier probe), every byte other than the field's own byte is zero in
the scanned image, and the field's byte (when it lies inside the 16
scanned bytes) holds exactly the field's single bit. -/
theorem probe_fresh_and_single (L : Layout) (cap : Image) (f : Fin 45) (b : Nat) :
    (run structSize L cap).1.getD f.val "" = probeLine L f.val (flagNames.getD f.val "")
    ∧ (b ≠ (L f.val).1 → (scannedImage L f.val).getD b 0 = 0)
    ∧ ((L f.val).1 < structSize →
        (scannedImage L f.val).getD (L f.val).1 0 = 1 <<< ((L f.val).2 % 8)) :=
  ⟨run_getD L cap f.val f.isLt,
   scannedImage_getD_ne L f.val b,
   scannedImage_getD_self L f.val⟩

/-- Claim C5, witness: the 9th flag (can_pop_frame) under the
little-endian declaration-order layout, starting from dirty memory. -/
theorem probe_fresh_and_single_witness :
    (run structSize byteLayout [7, 7, 7]).1.getD 8 ""
      = "pub const OFFSET_CAN_POP_FRAME : usize = 0x0101;\n"
    ∧ (scannedImage byteLayout 8).getD 0 0 = 0
    ∧ (scannedImage byteLayout 8).getD (byteLayout 8).1 0 = 1 <<< ((byteLayout 8).2 % 8) := by
  refine ⟨?_, ?_, ?_⟩
  · exact ((probe_fresh_and_single byteLayout [7, 7, 7] ⟨8, by decide⟩ 0).1).trans (by decide)
  · exact (probe_fresh_and_single byteLayout [7, 7, 7] ⟨8, by decide⟩ 0).2.1 (by decide)
  · exact (probe_fresh_and_single byteLayout [7, 7, 7] ⟨8, by decide⟩ 0).2.2 (by decide)

/-- Claim C6: determinism — for a fixed layout (a fixed compiler/target),
two executions produce identical output lines and identical exit status,
whatever uninitialised stack contents each execution happens to start
with. -/
theorem run_deterministic (size : Nat) (L : Layout) (c1 c2 : Image) :
    run size L c1 = run size L c2 := by
  rw [run_eq, run_eq]

/-- Claim C7: if the compiler maps the first declared field
(can_tag_objects) to bit 0 of byte 0, then the first probe's image holds
mask 0x01 at byte offset 0, the first printed line carries the literal
0x0001, and that literal denotes 0x0001. -/
theorem first_flag_roundtrip (L : Layout) (cap : Image) (h : L 0 = (0, 0)) :
    (scannedImage L 0).getD 0 0 = 1
    ∧ (run structSize L cap).1.getD 0 ""
        = "pub const OFFSET_CAN_TAG_OBJECTS : usize = 0x0001;\n"
    ∧ parseHex (chunk 0 1) = 0x0001 := by
  refine ⟨?_, ?_, by decide⟩
  · simp only [scannedImage, setFlag, h]
    decide
  · rw [run_getD L cap 0 (by decide)]
    simp only [probeLine, scannedImage, setFlag, h]
    decide

/-- Claim C7, witness: the little-endian declaration-order layout maps
field 0 to bit 0 of byte 0. -/
theorem first_flag_roundtrip_witness :
    (scannedImage byteLayout 0).getD 0 0 = 1
    ∧ (run structSize byteLayout []).1.getD 0 ""
        = "pub const OFFSET_CAN_TAG_OBJECTS : usize = 0x0001;\n"
    ∧ parseHex (chunk 0 1) = 0x0001 :=
  first_flag_roundtrip byteLayout [] (by decide)

/-- Claim C8: when a probe's scanned image contains no nonzero byte at
all, the emitter still prints the statement delimiter and newline — the
line reads "pub const NAME : usize = ;" with no integer literal — and the
run continues: all 45 lines are printed and the final status is 0. -/
theorem allzero_scan_line (L : Layout) (cap : Image) (f : Fin 45)
    (h : scannedImage L f.val = zeroImage) :
    (run structSize L cap).1.getD f.val ""
      = "pub const " ++ flagNames.getD f.val "" ++ " : usize = ;\n"
    ∧ (run structSize L cap).2 = 0
    ∧ (run structSize L cap).1.length = 45 := by
  refine ⟨?_, by simp [run_eq], run_length structSize L cap rfl⟩
  rw [run_getD L cap f.val f.isLt]
  unfold probeLine
  rw [h, dbg_zero, String.append_assoc]
  congr 1

/-- Claim C8, witness: under the degenerate layout every scan is all-zero
and the first line still closes with the delimiter. -/
theorem allzero_scan_line_witness :
    (run structSize outsideLayout []).1.getD 0 ""
      = "pub const OFFSET_CAN_TAG_OBJECTS : usize = ;\n"
    ∧ (run structSize outsideLayout []).2 = 0
    ∧ (run structSize outsideLayout []).1.length = 45 := by
  refine ⟨?_, ?_, ?_⟩
  · exact ((allzero_scan_line outsideLayout [] ⟨0, by decide⟩ (by decide)).1).trans (by decide)
  · exact (allzero_scan_line outsideLayout [] ⟨0, by decide⟩ (by decide)).2.1
  · exact (allzero_scan_line outsideLayout [] ⟨0, by decide⟩ (by decide)).2.2

/-- Claim C9: even when several bytes of the scanned image are nonzero,
dbg prints one four-hex-digit chunk per nonzero byte, in ascending byte
offset order, concatenated with no separator, followed by the delimiter —
and it never aborts: the exit status of a full run is still 0. -/
theorem dbg_multi_nonzero (img : Image)
    (_h : 2 ≤ ((List.range structSize).filter (fun i => img.getD i 0 ≠ 0)).length) :
    dbg img = dbgSpec img
    ∧ ∀ (L : Layout) (cap : Image), (run structSize L cap).2 = 0 :=
  ⟨dbg_eq_dbgSpec img, fun _ _ => by simp [run_eq]⟩

/-- Claim C9, witness: an image whose bytes 0 and 1 are nonzero yields
two chunks back to back and the delimiter. -/
theorem dbg_multi_nonzero_witness :
    dbg [1, 2] = "0x00010x0102;\n"
    ∧ (run structSize byteLayout []).2 = 0 :=
  ⟨((dbg_multi_nonzero [1, 2] (by decide)).1).trans (by decide),
   (dbg_multi_nonzero [1, 2] (by decide)).2 byteLayout []⟩

/-- Claim C10: exactly two exit paths — status 255 (exit(-1) as observed
by the operating system) exactly when the size check fails, and status 0
from the normal return after the last flag — and no other status is ever
produced, regardless of the scanned byte contents. -/
theorem two_exit_paths (size : Nat) (L : Layout) (cap : Image) :
    ((run size L cap).2 = 0 ∨ (run size L cap).2 = exitStatusOf (-1))
    ∧ exitStatusOf (-1) = 255
    ∧ ((run size L cap).2 = 0 ↔ size = structSize) := by
  by_cases h : size = structSize
  · rw [run_eq, if_pos h]
    exact ⟨Or.inl rfl, by decide, by simp [h]⟩
  · rw [run_eq, if_neg h]
    exact ⟨Or.inr (by decide), by decide, by simp [h]⟩

end BFGen
